import Mathlib

/-!
Shallow embedding of the InfinitiFunBot session-keeping script
(`src/main.py`, `src/config.py`, `src/utils/webdriver.py`).

Python exceptions are modelled with `Except String`; every fallible call
into the browser-automation library (the "Browser Controller") is a field
of an explicit world/driver record giving that call's outcome, so the
embedded functions are pure and executable.  Machine facts proved below
are stated against these embedded definitions.
-/

namespace InfinitiBot

/-! ### Configuration (`src/config.py`) -/

/-- Environment of the process: maps a variable name to its value, when set. -/
def Env : Type := String → Option String

/-- Value of `config.USERNAME` as a function of the process environment.
`src/config.py` line 4 assigns the string literal `'CARGOD'`; the
environment is never consulted. -/
def config_USERNAME (_env : Env) : String := "CARGOD"

/-- Value of `config.PASSWORD` as a function of the process environment.
`src/config.py` line 5 assigns the string literal `'412409'`; the
environment is never consulted. -/
def config_PASSWORD (_env : Env) : String := "412409"

/-- `config.SESSION_CHECK_INTERVAL` (seconds). -/
def SESSION_CHECK_INTERVAL : Nat := 30

/-- `config.MAX_SESSION_TIME` (seconds). -/
def MAX_SESSION_TIME : Nat := 24 * 60 * 60

/-- `config.MAX_SCREENSHOT_AGE` (hours). -/
def MAX_SCREENSHOT_AGE : Nat := 24

/-- `config.MAX_RETRIES`. -/
def MAX_RETRIES : Nat := 3

/-- `config.RETRY_DELAY` (seconds). -/
def RETRY_DELAY : Nat := 5

/-! ### Exception plumbing -/

/-- Whether an embedded Python call returned normally. -/
def excOk {α : Type} : Except String α → Bool
  | .ok _ => true
  | .error _ => false

/-! ### DOM model -/

/-- A located DOM element, as seen through the automation library:
its visibility and its text. -/
structure Element where
  displayed : Bool
  text : String
deriving Repr, DecidableEq

/-- State of the browser as observable through the driver handle during one
call to `verify_session` (`src/main.py` lines 211-238).  Each field records
the outcome of the corresponding driver call: `readyState` for
`execute_script("return document.readyState")`, `currentUrl` / `title` for
the property reads done by the log lines, `dashboard` for
`find_element(By.CSS_SELECTOR, ".dashboard")` (an `error` is the raised
`NoSuchElementException` / `WebDriverException`), and `errorMessages` for
`find_elements` on the error-message selectors (which returns a possibly
empty list and does not raise). -/
structure Driver where
  readyState : Except String String
  currentUrl : Except String String
  title : Except String String
  dashboard : Except String Element
  errorMessages : List Element

/-- Body of `verify_session` (`src/main.py` lines 213-235), i.e. the code
inside its `try:`; the calls run in source order and any raise propagates
out of the body immediately. -/
def verify_session_run (d : Driver) : Except String Bool :=
  match d.readyState with
  | .error e => .error e
  | .ok _ =>
    match d.currentUrl with
    | .error e => .error e
    | .ok _ =>
      match d.title with
      | .error e => .error e
      | .ok _ =>
        match d.dashboard with
        | .error e => .error e
        | .ok dash =>
          if !dash.displayed then .ok false
          else if d.errorMessages.any fun m => m.displayed then .ok false
          else .ok true

/-- `verify_session` (`src/main.py` lines 211-238): the `except Exception`
clause converts any raised exception into the return value `False`. -/
def verify_session (d : Driver) : Bool :=
  match verify_session_run d with
  | .ok b => b
  | .error _ => false

/-! ### `take_screenshot` (`src/main.py` lines 159-170) -/

/-- Outcomes of the driver calls made inside `take_screenshot`:
`makedirs` for `os.makedirs('screenshots', exist_ok=True)`, `save` for
`driver.save_screenshot`, `currentUrl` / `title` for the property reads in
the two context log lines. -/
structure ShotWorld where
  makedirs : Except String Unit
  save : Except String Unit
  currentUrl : Except String String
  title : Except String String

/-- Result of a call to `take_screenshot`: either the screenshot file was
written and logged (`saved` carries its path), or some step raised and the
handler logged the error (`failed` carries it).  Either way the function
returns normally. -/
inductive ShotOutcome where
  | saved (path : String)
  | failed (err : String)
deriving Repr, DecidableEq

/-- Filename built at `src/main.py` line 164 from the status tag and the
formatted timestamp. -/
def shotFilename (status ts : String) : String :=
  "screenshots/" ++ status ++ "_" ++ ts ++ ".png"

/-- Body of `take_screenshot` (`src/main.py` lines 161-168): the code
inside its `try:`; the calls run in source order and any raise propagates
out of the body immediately. -/
def take_screenshot_run (w : ShotWorld) (status ts : String) :
    Except String String :=
  match w.makedirs with
  | .error e => .error e
  | .ok _ =>
    match w.save with
    | .error e => .error e
    | .ok _ =>
      match w.currentUrl with
      | .error e => .error e
      | .ok _ =>
        match w.title with
        | .error e => .error e
        | .ok _ => .ok (shotFilename status ts)

/-- `take_screenshot` (`src/main.py` lines 159-170): the
`except Exception` clause catches anything raised by the body, logs it and
falls off the end of the function. -/
def take_screenshot (w : ShotWorld) (status ts : String) : ShotOutcome :=
  match take_screenshot_run w status ts with
  | .ok fn => .saved fn
  | .error e => .failed e

/-! ### `retry_on_exception` (`src/main.py` lines 80-102) -/

/-- Python `x or default` semantics used at `src/main.py` lines 82-83:
`None` (here `none`) and `0` are falsy and give the config default. -/
def orDefault (x : Option Nat) (dflt : Nat) : Nat :=
  match x with
  | none => dflt
  | some v => if v = 0 then dflt else v

/-- The `for attempt in range(retries)` loop of the `wrapper`
(`src/main.py` lines 88-100), with the iterations still to run counted
down by `remaining` (on entry to an iteration, `remaining + attempt =
retries`, so `attempt == retries - 1` is `remaining = 1`).  `f k` is the
outcome of the wrapped call on attempt `k` (0-based); `waits` accumulates
the back-off sleeps performed so far.  Returns the wrapper's result
together with the full list of sleeps.  The fall-through
`raise last_exception` at line 100 is only reachable when the loop body
never ran (`retries = 0`); there `last_exception` is `None` and Python
raises a `TypeError`. -/
def retryLoop {α : Type} (f : Nat → Except String α) (delay : Nat) :
    Nat → Nat → List Nat → Except String α × List Nat
  | _attempt, 0, waits =>
    (.error "TypeError: exceptions must derive from BaseException", waits)
  | attempt, remaining + 1, waits =>
    match f attempt with
    | .ok v => (.ok v, waits)
    | .error e =>
      if remaining = 0 then
        (.error e, waits)
      else
        retryLoop f delay (attempt + 1) remaining (waits ++ [delay * 2 ^ attempt])

/-- The decorator `retry_on_exception(retries, delay)` applied to a
function whose attempt outcomes are `f` (`src/main.py` lines 80-102). -/
def retry_on_exception {α : Type} (retries delay : Option Nat)
    (f : Nat → Except String α) : Except String α × List Nat :=
  retryLoop f (orDefault delay RETRY_DELAY) 0 (orDefault retries MAX_RETRIES) []

/-! ### `verify_credentials` (`src/main.py` lines 148-157) -/

/-- The missing-credentials `ValueError` message raised at
`src/main.py` line 155. -/
def missingCredentialsMsg : String :=
  "Missing credentials - please set INFINITI_USERNAME and INFINITI_PASSWORD environment variables"

/-- One attempt of `verify_credentials` (`src/main.py` lines 149-157):
Python `not username` is true exactly on the empty string. -/
def verify_credentials_once (u p : String) : Except String (String × String) :=
  if u.isEmpty || p.isEmpty then .error missingCredentialsMsg
  else .ok (u, p)

/-- `verify_credentials`, including its `@retry_on_exception()` decorator
(`src/main.py` line 148): the result the caller in `main` sees. -/
def verify_credentials (u p : String) : Except String (String × String) :=
  (retry_on_exception none none (fun _ => verify_credentials_once u p)).1

/-! ### Skeleton of `main` (`src/main.py` lines 256-378) -/

/-- Abstraction of what happens during one run of `main`:
`username` / `password` are the values `config.USERNAME` /
`config.PASSWORD` supply to `verify_credentials`; `driverInit` is the
outcome of `setup_browser()`; `runOutcome` is the outcome of everything
from the navigation loop through the session loop (`.ok` when that block
returns normally — including signal-triggered loop exit — and `.error`
when it raises, e.g. an unrecoverable login failure). -/
structure MainWorld where
  username : String
  password : String
  driverInit : Except String Unit
  runOutcome : Except String Unit

/-- Observable result of a run of `main` and of process teardown:
the process exit status, whether a browser instance was created, whether
`cleanup_driver` ran `driver.quit()` on it, and whether the outer
`except` handler captured an error screenshot. -/
structure MainResult where
  exitCode : Nat
  driverLaunched : Bool
  driverQuit : Bool
  errorShot : Bool
deriving Repr, DecidableEq

/-- The `try/except/finally` skeleton of `main` (`src/main.py` lines
256-378) followed by interpreter exit.  The `except Exception` clause at
line 373 catches every error raised in the body, so `main` always returns
normally and the interpreter exits with status 0; the `finally` clause at
line 377 runs `cleanup_driver(driver)`, which calls `driver.quit()`
whenever `driver` is not `None`. -/
def mainRun (w : MainWorld) : MainResult :=
  match verify_credentials w.username w.password with
  | .error _ => { exitCode := 0, driverLaunched := false, driverQuit := false, errorShot := false }
  | .ok _ =>
    match w.driverInit with
    | .error _ => { exitCode := 0, driverLaunched := false, driverQuit := false, errorShot := false }
    | .ok _ =>
      match w.runOutcome with
      | .ok _ => { exitCode := 0, driverLaunched := true, driverQuit := true, errorShot := false }
      | .error _ => { exitCode := 0, driverLaunched := true, driverQuit := true, errorShot := true }

/-! ### `cleanup_screenshots` (`src/main.py` lines 39-78) -/

/-- Decidable equality for embedded call outcomes. -/
instance {ε α : Type} [DecidableEq ε] [DecidableEq α] : DecidableEq (Except ε α) :=
  fun a b =>
    match a, b with
    | .ok x, .ok y => if h : x = y then .isTrue (by rw [h]) else .isFalse (by simp [h])
    | .error e, .error e' => if h : e = e' then .isTrue (by rw [h]) else .isFalse (by simp [h])
    | .ok _, .error _ => .isFalse (by simp)
    | .error _, .ok _ => .isFalse (by simp)

/-- One directory entry of `screenshots/` as `cleanup_screenshots` sees it:
the filename, the outcome of `os.path.getctime` on it, and the outcome
`os.remove` would have on it. -/
structure SFile where
  filename : String
  ctimeResult : Except String Int
  removeResult : Except String Unit
deriving Repr, DecidableEq

/-- Python `needle in s` (substring test), written out over character
lists: `startsAt` checks a prefix match at the head. -/
def startsAt : List Char → List Char → Bool
  | [], _ => true
  | _ :: _, [] => false
  | a :: as, b :: bs => a == b && startsAt as bs

/-- Substring occurrence anywhere in the character list. -/
def occursIn (needle : List Char) : List Char → Bool
  | [] => needle.isEmpty
  | c :: cs => startsAt needle (c :: cs) || occursIn needle cs

/-- Python `'success' in filename` (`src/main.py` line 63). -/
def containsSuccess (s : String) : Bool :=
  occursIn "success".data s.data

/-- Python `filename.endswith('.png')` (`src/main.py` line 52). -/
def isPng (f : SFile) : Bool :=
  startsAt ".png".data.reverse f.filename.data.reverse

/-- Whether `os.remove` on this entry would succeed. -/
def removeOk (f : SFile) : Bool := excOk f.removeResult

/-- The `ctime` of an entry whose `getctime` succeeded. -/
def ctimeOf (f : SFile) : Int :=
  match f.ctimeResult with
  | .ok c => c
  | .error _ => 0

/-- Body of the listing loop (`src/main.py` lines 51-55) over the `.png`
entries: call `os.path.getctime` on each in directory order and build the
`(ctime, file)` list; a raise from `getctime` propagates immediately to
the enclosing `try` of `cleanup_screenshots`, abandoning the listing. -/
def gatherScreenshotsGo : List SFile → Except String (List (Int × SFile))
  | [] => .ok []
  | f :: rest =>
    match f.ctimeResult with
    | .error e => .error e
    | .ok c =>
      match gatherScreenshotsGo rest with
      | .error e => .error e
      | .ok shots => .ok ((c, f) :: shots)

/-- The listing phase (`src/main.py` lines 50-55): walk the directory in
order keeping the `.png` entries. -/
def gatherScreenshots (dir : List SFile) : Except String (List (Int × SFile)) :=
  gatherScreenshotsGo (dir.filter isPng)

/-- Sort key of an entry: the Python code sorts tuples
`(ctime, filepath, filename)`; since `filepath = 'screenshots/' + filename`
the comparison is lexicographic on `(ctime, filename)`. -/
def skey (p : Int × SFile) : Int ×ₗ String :=
  toLex (p.1, p.2.filename)

/-- The order used by `screenshots.sort(reverse=True)`
(`src/main.py` line 56): `a` comes before `b` when `a`'s key is the
larger. -/
def shotR (a b : Int × SFile) : Prop := skey b ≤ skey a

instance : DecidableRel shotR := fun a b => by
  unfold shotR
  infer_instance

instance : IsTotal (Int × SFile) shotR :=
  ⟨fun a b => (le_total (skey a) (skey b)).symm.imp id id⟩

instance : IsTrans (Int × SFile) shotR :=
  ⟨fun _ _ _ hab hbc => le_trans hbc hab⟩

/-- `screenshots.sort(reverse=True)` (`src/main.py` line 56). -/
def sortScreenshots (l : List (Int × SFile)) : List (Int × SFile) :=
  List.insertionSort shotR l

/-- Age cutoff in seconds: `config.MAX_SCREENSHOT_AGE * 3600`
(`src/main.py` line 69). -/
def ageCutoff (maxAgeHours : Nat) : Int := (maxAgeHours : Int) * 3600

/-- Python `file_age > config.MAX_SCREENSHOT_AGE * 3600`
(`src/main.py` lines 60 and 69). -/
def isOld (now : Int) (maxAgeHours : Nat) (ctime : Int) : Bool :=
  ageCutoff maxAgeHours < now - ctime

/-- One iteration of the processing loop (`src/main.py` lines 59-74) over
the sorted entries.  State: the `kept_success` flag and the names removed
so far.  A `success`-tagged name is skipped while `kept_success` is unset;
otherwise an entry older than the cutoff has `os.remove` attempted on it,
and a raise from `os.remove` is caught, logged and the loop continues. -/
def sweepStep (now : Int) (maxAge : Nat) :
    Bool × List String → Int × SFile → Bool × List String
  | (kept, removed), (ctime, f) =>
    if containsSuccess f.filename && !kept then
      (true, removed)
    else if isOld now maxAge ctime then
      match f.removeResult with
      | .ok _ => (kept, removed ++ [f.filename])
      | .error _ => (kept, removed)
    else
      (kept, removed)

/-- `cleanup_screenshots` (`src/main.py` lines 39-78), returning the list
of filenames the sweep removed.  The enclosing `try` (line 41) turns any
raise from the listing phase into a log line and an early return with
nothing removed. -/
def cleanup_screenshots (now : Int) (maxAge : Nat) (dir : List SFile) :
    List String :=
  match gatherScreenshots dir with
  | .error _ => []
  | .ok shots => ((sortScreenshots shots).foldl (sweepStep now maxAge) (false, [])).2

/-! #### Reference form of the sweep, used to reason about the fold -/

/-- Drop the first `success`-tagged entry of the list, if any: the entry
the `kept_success` flag protects. -/
def dropFirstSuccess : List (Int × SFile) → List (Int × SFile)
  | [] => []
  | p :: rest =>
    if containsSuccess p.2.filename then rest else p :: dropFirstSuccess rest

/-- Names removed by the loop once `kept_success` is already set: every
entry older than the cutoff whose removal succeeds. -/
def sweepAfter (now : Int) (maxAge : Nat) (l : List (Int × SFile)) : List String :=
  l.filterMap fun p =>
    if isOld now maxAge p.1 && removeOk p.2 then some p.2.filename else none

/-! ### The session polling loop (`src/main.py` lines 331-363) -/

/-- Mutable locals of the session loop: `start_time`, `last_success_time`
and `session_duration` (`src/main.py` lines 326-328). -/
structure LoopState where
  startTime : Int
  lastSuccess : Int
  sessionDuration : Int
deriving Repr, DecidableEq

/-- Effects of one iteration of the session loop: whether the loop `break`s,
which screenshot (if any) is captured, whether `login`-style recovery is
invoked, and whether the interval sleep runs. -/
structure TickEffect where
  exits : Bool
  screenshot : Option String
  loginCalled : Bool
  slept : Bool
deriving Repr, DecidableEq

/-- One iteration of the `while running and session_duration <
config.MAX_SESSION_TIME` loop body (`src/main.py` lines 332-355), entered
with the loop condition true.  `now` is the value `time.time()` returns
during the tick, `shutdown` is `shutdown_event.is_set()`, and `live` is
the value of `verify_session(driver)`.  On a failed check inside the
60-second grace window the code logs a warning and `continue`s (no sleep);
past the window it captures an `"error"` screenshot and `break`s — there
is no call that re-runs the login sequence anywhere in the loop. -/
def sessionTick (st : LoopState) (now : Int) (shutdown : Bool) (live : Bool) :
    LoopState × TickEffect :=
  if shutdown then
    (st, { exits := true, screenshot := none, loginCalled := false, slept := false })
  else if !live then
    if now - st.lastSuccess > 60 then
      (st, { exits := true, screenshot := some "error", loginCalled := false, slept := false })
    else
      (st, { exits := false, screenshot := none, loginCalled := false, slept := false })
  else
    ({ st with lastSuccess := now, sessionDuration := now - st.startTime },
     { exits := false, screenshot := none, loginCalled := false, slept := true })

/-! ### Derived notions used by the statements -/

/-- Sort key of a directory entry whose `getctime` succeeded. -/
def fkey (f : SFile) : Int ×ₗ String :=
  toLex (ctimeOf f, f.filename)

/-- The entry the sweep's `kept_success` flag protects: a `.png` file whose
name carries the `success` tag and whose `(ctime, filename)` key is maximal
among all such files of the directory — i.e. the most recent success
screenshot. -/
def keptSuccess (dir : List SFile) (f : SFile) : Prop :=
  isPng f = true ∧ containsSuccess f.filename = true ∧
    ∀ g ∈ dir, isPng g = true → containsSuccess g.filename = true → fkey g ≤ fkey f

/-- The liveness condition exactly as the claim words it: the page is
responsive (the readiness script returns) and the dashboard indicator
element is present and visible.  Stated from the spec, for comparison with
the embedded `verify_session`. -/
def specLiveness (d : Driver) : Prop :=
  excOk d.readyState = true ∧ ∃ e, d.dashboard = .ok e ∧ e.displayed = true

/-- A driver state in which the page is fully responsive and the dashboard
is visible, but a session-error banner is also visible. -/
def errorBannerDriver : Driver :=
  { readyState := .ok "complete"
    currentUrl := .ok "https://dash.infiniti.fun/earn/afk"
    title := .ok "Dashboard"
    dashboard := .ok { displayed := true, text := "dashboard" }
    errorMessages := [{ displayed := true, text := "Session expired" }] }

/-- Geometric back-off sleeps `delay * 2 ^ (a + j)` for `j < n`, the shape
of the sleeps `retryLoop` performs starting at attempt `a`. -/
def backoffs (d a n : Nat) : List Nat :=
  (List.range n).map fun j => d * 2 ^ (a + j)

/-! ## Lemmas about the retry loop -/

theorem backoffs_zero (d a : Nat) : backoffs d a 0 = [] := rfl

theorem backoffs_succ (d a n : Nat) :
    backoffs d a (n + 1) = d * 2 ^ a :: backoffs d (a + 1) n := by
  unfold backoffs
  rw [List.range_succ_eq_map, List.map_cons, List.map_map]
  refine congrArg₂ _ (by rw [Nat.add_zero]) (List.map_congr_left ?_)
  intro j _
  simp only [Function.comp_apply]
  rw [Nat.add_succ, Nat.succ_add]

theorem backoffs_length (d a n : Nat) : (backoffs d a n).length = n := by
  simp [backoffs]

theorem retryLoop_const_error {α : Type} (e : String) (d : Nat) :
    ∀ rem a ws, 0 < rem →
      (retryLoop (fun _ => (.error e : Except String α)) d a rem ws).1 = .error e := by
  intro rem
  induction rem with
  | zero => intro a ws h; omega
  | succ m ih =>
    intro a ws _
    by_cases hm : m = 0
    · subst hm; rfl
    · have hrec : retryLoop (fun _ => (.error e : Except String α)) d a (m + 1) ws =
          retryLoop (fun _ => (.error e : Except String α)) d (a + 1) m (ws ++ [d * 2 ^ a]) := by
        simp [retryLoop, hm]
      rw [hrec]
      exact ih (a + 1) (ws ++ [d * 2 ^ a]) (Nat.pos_of_ne_zero hm)

theorem retryLoop_waits {α : Type} (f : Nat → Except String α) (d : Nat) :
    ∀ rem a ws, ∃ n, (retryLoop f d a rem ws).2 = ws ++ backoffs d a n ∧ n ≤ rem - 1 := by
  intro rem
  induction rem with
  | zero => intro a ws; exact ⟨0, by simp [retryLoop, backoffs_zero], by omega⟩
  | succ m ih =>
    intro a ws
    cases hf : f a with
    | ok v => exact ⟨0, by simp [retryLoop, hf, backoffs_zero], by omega⟩
    | error e =>
      by_cases hm : m = 0
      · subst hm
        exact ⟨0, by simp [retryLoop, hf, backoffs_zero], by omega⟩
      · obtain ⟨n, hn, hle⟩ := ih (a + 1) (ws ++ [d * 2 ^ a])
        refine ⟨n + 1, ?_, by omega⟩
        have : retryLoop f d a (m + 1) ws =
            retryLoop f d (a + 1) m (ws ++ [d * 2 ^ a]) := by
          simp [retryLoop, hf, hm]
        rw [this, hn, backoffs_succ, List.append_assoc]
        rfl

theorem retryLoop_all_error {α : Type} (f : Nat → Except String α) (g : Nat → String) (d : Nat) :
    ∀ rem a ws, 0 < rem → (∀ k, a ≤ k → k < a + rem → f k = .error (g k)) →
      (retryLoop f d a rem ws).1 = .error (g (a + rem - 1)) := by
  intro rem
  induction rem with
  | zero => intro a ws h; omega
  | succ m ih =>
    intro a ws _ hf
    have ha : f a = .error (g a) := hf a le_rfl (by omega)
    by_cases hm : m = 0
    · subst hm
      simp [retryLoop, ha]
    · have hrec : retryLoop f d a (m + 1) ws =
          retryLoop f d (a + 1) m (ws ++ [d * 2 ^ a]) := by
        simp [retryLoop, ha, hm]
      rw [hrec, ih (a + 1) (ws ++ [d * 2 ^ a]) (Nat.pos_of_ne_zero hm)
        (fun k hk hk2 => hf k (by omega) (by omega))]
      have harith : a + 1 + m - 1 = a + (m + 1) - 1 := by omega
      rw [harith]

theorem orDefault_pos (x : Option Nat) (dflt : Nat) (h : 0 < dflt) :
    0 < orDefault x dflt := by
  cases x with
  | none => exact h
  | some v =>
    by_cases hv : v = 0 <;> simp [orDefault, hv] <;> omega

/-! ## Claim C2: `verify_session` -/

/-- C2 (counterexample).  The claim's biconditional fails on the code: in a
driver state where the page is responsive and the dashboard is present and
visible but a session-error banner is also displayed, `verify_session`
returns `false` (src/main.py lines 228-232), while the claim says it
returns `true`. -/
theorem verify_session_spec_mismatch :
    specLiveness errorBannerDriver ∧ verify_session errorBannerDriver = false :=
  ⟨⟨rfl, ⟨{ displayed := true, text := "dashboard" }, rfl, rfl⟩⟩, rfl⟩

/-- C2 (amended).  `verify_session` is a total boolean function of the
driver state — every raise inside its body is caught and becomes `false` —
and it returns `true` iff the readiness script and the logging property
reads all succeed, the dashboard element is found and visible, and no
session-error message element is displayed. -/
theorem verify_session_characterization (d : Driver) :
    verify_session d = true ↔
      (excOk d.readyState = true ∧ excOk d.currentUrl = true ∧ excOk d.title = true ∧
       (∃ e, d.dashboard = .ok e ∧ e.displayed = true) ∧
       (d.errorMessages.any fun m => m.displayed) = false) := by
  obtain ⟨rs, cu, ti, db, em⟩ := d
  rcases rs with e1 | s1 <;> rcases cu with e2 | s2 <;> rcases ti with e3 | s3 <;>
    rcases db with e4 | dash <;>
      simp only [verify_session, verify_session_run, excOk] <;>
        try simp
  cases hd : dash.displayed
  · simp [hd]
  · simp only [hd]
    simp
    by_cases hany : ∃ x ∈ em, x.displayed = true
    · rw [if_pos hany]
      obtain ⟨x, hx, hxd⟩ := hany
      simp
      exact ⟨x, hx, hxd⟩
    · rw [if_neg hany]
      simp
      intro x hx
      cases hxv : x.displayed
      · rfl
      · exact absurd ⟨x, hx, hxv⟩ hany

/-! ## Claim C10: `take_screenshot` -/

/-- C10.  `take_screenshot` never propagates an exception: for every
combination of outcomes of the directory creation, the capture, and the
URL/title reads, it returns normally — with the saved path when everything
succeeded, and with a caught-and-logged error otherwise. -/
theorem take_screenshot_catches_all (w : ShotWorld) (status ts : String) :
    (take_screenshot w status ts = .saved (shotFilename status ts) ↔
      (excOk w.makedirs = true ∧ excOk w.save = true ∧
       excOk w.currentUrl = true ∧ excOk w.title = true)) ∧
    (take_screenshot w status ts = .saved (shotFilename status ts) ∨
      ∃ e, take_screenshot w status ts = .failed e) := by
  obtain ⟨mk, sv, cu, ti⟩ := w
  rcases mk with e | u1 <;> rcases sv with e | u2 <;> rcases cu with e | u3 <;>
    rcases ti with e | u4 <;>
      simp [take_screenshot, take_screenshot_run, excOk]

/-! ## Claim C4: bounded retry with exponential back-off -/

/-- C4.  A retried operation is attempted at most the configured maximum
number of times: the sleep list has fewer entries than the effective retry
count (so there are at most `max` attempts and the loop always
terminates); the wait after the `(i+1)`-th failed attempt is
`delay * 2 ^ i`; and when every attempt fails, the error of the final
attempt propagates to the caller. -/
theorem retry_bounded_backoff {α : Type} (retries delay : Option Nat)
    (f : Nat → Except String α) :
    (∃ n, n < orDefault retries MAX_RETRIES ∧
      (retry_on_exception retries delay f).2 =
        backoffs (orDefault delay RETRY_DELAY) 0 n) ∧
    (∀ g : Nat → String,
      (∀ k, k < orDefault retries MAX_RETRIES → f k = .error (g k)) →
      (retry_on_exception retries delay f).1 =
        .error (g (orDefault retries MAX_RETRIES - 1))) := by
  have hRpos : 0 < orDefault retries MAX_RETRIES :=
    orDefault_pos _ _ (by norm_num [MAX_RETRIES])
  obtain ⟨n, hn, hle⟩ :=
    retryLoop_waits f (orDefault delay RETRY_DELAY) (orDefault retries MAX_RETRIES) 0 []
  refine ⟨⟨n, by omega, ?_⟩, ?_⟩
  · rw [show (retry_on_exception retries delay f).2 =
        (retryLoop f (orDefault delay RETRY_DELAY) 0 (orDefault retries MAX_RETRIES) []).2
      from rfl, hn]
    simp
  · intro g hg
    have := retryLoop_all_error f g (orDefault delay RETRY_DELAY)
      (orDefault retries MAX_RETRIES) 0 [] hRpos
      (fun k hk hk2 => hg k (by omega))
    simpa using this

/-- C4 (witness).  With the config defaults and an operation failing on
every attempt: there are 2 back-off sleeps (3 attempts), and the final
error propagates. -/
theorem retry_bounded_backoff_witness :
    (retry_on_exception none none fun _ => (.error "boom" : Except String Unit)).1 =
      .error "boom" ∧
    (retry_on_exception none none fun _ => (.error "boom" : Except String Unit)).2 = [5, 10] :=
  ⟨(retry_bounded_backoff none none fun _ => (.error "boom" : Except String Unit)).2
      (fun _ => "boom") (fun _ _ => rfl),
   by rfl⟩

/-! ## Claim C5: process exit codes -/

/-- C5 (counterexample).  On an unrecoverable login failure the process
still exits with status 0: `main` catches the exception at
src/main.py line 373 and returns normally, and the script never calls
`sys.exit`, so the interpreter exits 0 — the claim requires a non-zero
status here. -/
theorem mainRun_login_failure_exit_zero :
    (mainRun { username := "CARGOD", password := "412409", driverInit := .ok (),
               runOutcome := .error "Login failed: invalid credentials" }).exitCode = 0 := by
  rfl

/-- C5 (amended).  The process exits with status 0 on every termination
path of `main` — graceful signal-triggered shutdown, unrecoverable login
failure, and unhandled session error alike: all exceptions are caught and
logged inside `main` and nothing sets a non-zero exit status. -/
theorem mainRun_always_exit_zero (w : MainWorld) : (mainRun w).exitCode = 0 := by
  unfold mainRun
  cases hv : verify_credentials w.username w.password <;>
    cases hd : w.driverInit <;> cases hr : w.runOutcome <;> simp [hv, hd, hr]

/-! ## Claim C6: credential loading -/

/-- C6.  The credentials `config.USERNAME` and `config.PASSWORD` are the
hard-coded literals `'CARGOD'` and `'412409'` (src/config.py lines 4-5):
they are the same whatever the process environment holds, and in
particular setting `INFINITI_USERNAME` / `INFINITI_PASSWORD` has no effect
on them — contradicting the claimed environment loading, which the error
message at src/main.py line 155 itself advertises. -/
theorem config_credentials_hardcoded :
    (∀ env1 env2 : Env, config_USERNAME env1 = config_USERNAME env2 ∧
        config_PASSWORD env1 = config_PASSWORD env2) ∧
    config_USERNAME (fun n => if n = "INFINITI_USERNAME" then some "alice" else none) =
      "CARGOD" ∧
    config_PASSWORD (fun n => if n = "INFINITI_PASSWORD" then some "hunter2" else none) =
      "412409" :=
  ⟨fun _ _ => ⟨rfl, rfl⟩, rfl, rfl⟩

/-! ## Claim C7: empty credentials fail before browser launch -/

/-- C7.  Whenever the username or the password `verify_credentials` reads
is empty, it raises the missing-credentials `ValueError` (after the
decorator's retries), and `main` never creates a browser instance. -/
theorem startup_fails_before_browser_on_empty_credentials (w : MainWorld)
    (h : w.username = "" ∨ w.password = "") :
    verify_credentials w.username w.password = .error missingCredentialsMsg ∧
    (mainRun w).driverLaunched = false ∧ (mainRun w).driverQuit = false := by
  have honce : verify_credentials_once w.username w.password = .error missingCredentialsMsg := by
    have hemp : ("" : String).isEmpty = true := rfl
    rcases h with h | h <;> simp [verify_credentials_once, h, hemp]
  have hv : verify_credentials w.username w.password = .error missingCredentialsMsg := by
    unfold verify_credentials retry_on_exception
    simp only [honce]
    exact retryLoop_const_error _ _ _ 0 [] (by norm_num [orDefault, MAX_RETRIES])
  refine ⟨hv, ?_, ?_⟩ <;> simp [mainRun, hv]

/-- C7 (witness). -/
theorem startup_fails_before_browser_on_empty_credentials_witness :
    verify_credentials "" "412409" = .error missingCredentialsMsg ∧
    (mainRun { username := "", password := "412409", driverInit := .ok (),
               runOutcome := .ok () }).driverLaunched = false := by
  have h := startup_fails_before_browser_on_empty_credentials
    { username := "", password := "412409", driverInit := .ok (), runOutcome := .ok () }
    (Or.inl rfl)
  exact ⟨h.1, h.2.1⟩

/-! ## Claim C8: the driver is released on every exit path -/

/-- C8.  On every run of `main` in which a browser instance was created,
`cleanup_driver` runs `driver.quit()` on it before the process ends: the
`finally` clause at src/main.py line 377 (backed by the `atexit` hook at
line 268) covers the normal path, the exception path and signal-triggered
shutdown alike. -/
theorem mainRun_releases_driver (w : MainWorld)
    (h : (mainRun w).driverLaunched = true) :
    (mainRun w).driverQuit = true := by
  unfold mainRun at h ⊢
  cases hv : verify_credentials w.username w.password <;>
    cases hd : w.driverInit <;> cases hr : w.runOutcome <;>
      simp [hv, hd, hr] at h ⊢

/-- C8 (witness). -/
theorem mainRun_releases_driver_witness :
    (mainRun { username := "alice", password := "secret", driverInit := .ok (),
               runOutcome := .error "session error" }).driverQuit = true :=
  mainRun_releases_driver _ (by rfl)

/-! ## Claim C1: the grace window in the session loop -/

/-- C1 (counterexample).  At the claim's own scenario — liveness `false`,
61 seconds since the last successful check — the loop body captures an
`"error"` screenshot and `break`s out of the session loop; no recovery
`login()` call is made (`loginCalled = false`), while the claim requires
recovery to be attempted. -/
theorem sessionTick_no_recovery_at_61 :
    sessionTick { startTime := 0, lastSuccess := 0, sessionDuration := 0 } 61 false false =
      ({ startTime := 0, lastSuccess := 0, sessionDuration := 0 },
       { exits := true, screenshot := some "error", loginCalled := false, slept := false }) := by
  rfl

/-- C1 (amended).  A liveness failure within the 60-second grace window is
tolerated: the loop logs a warning and retries immediately.  A liveness
failure more than 60 seconds after the last successful check captures an
`"error"` screenshot and terminates the session loop; recovery via
`login()` is not attempted. -/
theorem sessionTick_grace_policy (st : LoopState) (now : Int) :
    (now - st.lastSuccess > 60 →
      sessionTick st now false false =
        (st, { exits := true, screenshot := some "error",
               loginCalled := false, slept := false })) ∧
    (now - st.lastSuccess ≤ 60 →
      sessionTick st now false false =
        (st, { exits := false, screenshot := none,
               loginCalled := false, slept := false })) := by
  refine ⟨fun h => ?_, fun h => ?_⟩
  · simp [sessionTick, h]
  · simp [sessionTick, not_lt.mpr h]

/-- C1 (witness). -/
theorem sessionTick_grace_policy_witness :
    sessionTick { startTime := 0, lastSuccess := 0, sessionDuration := 0 } 100 false false =
      ({ startTime := 0, lastSuccess := 0, sessionDuration := 0 },
       { exits := true, screenshot := some "error", loginCalled := false, slept := false }) ∧
    sessionTick { startTime := 0, lastSuccess := 50, sessionDuration := 0 } 100 false false =
      ({ startTime := 0, lastSuccess := 50, sessionDuration := 0 },
       { exits := false, screenshot := none, loginCalled := false, slept := false }) :=
  ⟨(sessionTick_grace_policy _ _).1 (by decide), (sessionTick_grace_policy _ _).2 (by decide)⟩

/-! ## Lemmas about the screenshot sweep -/

theorem sweepAfter_nil (now : Int) (mA : Nat) : sweepAfter now mA [] = [] := rfl

theorem sweepAfter_cons (now : Int) (mA : Nat) (p : Int × SFile) (l : List (Int × SFile)) :
    sweepAfter now mA (p :: l) =
      (if isOld now mA p.1 && removeOk p.2 then [p.2.filename] else []) ++
        sweepAfter now mA l := by
  unfold sweepAfter
  rw [List.filterMap_cons]
  cases h : isOld now mA p.1 && removeOk p.2 <;> simp [h]

theorem foldl_sweepStep_kept (now : Int) (mA : Nat) :
    ∀ (l : List (Int × SFile)) (acc : List String),
      l.foldl (sweepStep now mA) (true, acc) = (true, acc ++ sweepAfter now mA l) := by
  intro l
  induction l with
  | nil => intro acc; simp [sweepAfter]
  | cons p rest ih =>
    intro acc
    obtain ⟨c, f⟩ := p
    rw [List.foldl_cons]
    have hstep : sweepStep now mA (true, acc) (c, f) =
        (true, acc ++ (if isOld now mA c && removeOk f then [f.filename] else [])) := by
      cases ho : isOld now mA c <;> cases hr : f.removeResult <;>
        simp [sweepStep, removeOk, excOk, ho, hr]
    rw [hstep, ih, sweepAfter_cons]
    simp

theorem foldl_sweepStep_unkept (now : Int) (mA : Nat) :
    ∀ (l : List (Int × SFile)) (acc : List String),
      (l.foldl (sweepStep now mA) (false, acc)).2 =
        acc ++ sweepAfter now mA (dropFirstSuccess l) := by
  intro l
  induction l with
  | nil => intro acc; simp [sweepAfter, dropFirstSuccess]
  | cons p rest ih =>
    intro acc
    obtain ⟨c, f⟩ := p
    rw [List.foldl_cons]
    by_cases hs : containsSuccess f.filename = true
    · have hstep : sweepStep now mA (false, acc) (c, f) = (true, acc) := by
        simp [sweepStep, hs]
      rw [hstep, foldl_sweepStep_kept]
      simp [dropFirstSuccess, hs]
    · have hstep : sweepStep now mA (false, acc) (c, f) =
          (false, acc ++ (if isOld now mA c && removeOk f then [f.filename] else [])) := by
        cases ho : isOld now mA c <;> cases hr : f.removeResult <;>
          simp [sweepStep, removeOk, excOk, hs, ho, hr]
      rw [hstep, ih]
      simp [dropFirstSuccess, hs, sweepAfter_cons]

theorem gatherGo_ok :
    ∀ l : List SFile, (∀ f ∈ l, excOk f.ctimeResult = true) →
      gatherScreenshotsGo l = .ok (l.map fun f => (ctimeOf f, f)) := by
  intro l
  induction l with
  | nil => intro _; rfl
  | cons g rest ih =>
    intro h
    have hg := h g (List.mem_cons_self g rest)
    cases hc : g.ctimeResult with
    | error e => rw [hc] at hg; simp [excOk] at hg
    | ok c =>
      have hrest := ih fun f hf => h f (List.mem_cons_of_mem _ hf)
      simp [gatherScreenshotsGo, hc, hrest, ctimeOf]

theorem gather_ok (dir : List SFile)
    (hct : ∀ f ∈ dir, isPng f = true → excOk f.ctimeResult = true) :
    gatherScreenshots dir = .ok ((dir.filter isPng).map fun f => (ctimeOf f, f)) := by
  unfold gatherScreenshots
  exact gatherGo_ok _ fun f hf =>
    hct f (List.mem_filter.mp hf).1 (List.mem_filter.mp hf).2

theorem gatherGo_error :
    ∀ (l : List SFile) (f : SFile), f ∈ l → excOk f.ctimeResult = false →
      ∃ e, gatherScreenshotsGo l = .error e := by
  intro l
  induction l with
  | nil => intro f hf; simp at hf
  | cons g rest ih =>
    intro f hf hbad
    rcases List.mem_cons.mp hf with rfl | hf
    · cases hc : f.ctimeResult with
      | error e => exact ⟨e, by simp [gatherScreenshotsGo, hc]⟩
      | ok c => rw [hc] at hbad; simp [excOk] at hbad
    · cases hc : g.ctimeResult with
      | error e => exact ⟨e, by simp [gatherScreenshotsGo, hc]⟩
      | ok c =>
        obtain ⟨e, he⟩ := ih f hf hbad
        exact ⟨e, by simp [gatherScreenshotsGo, hc, he]⟩

theorem cleanup_screenshots_eq (now : Int) (mA : Nat) (dir : List SFile)
    (shots : List (Int × SFile)) (h : gatherScreenshots dir = .ok shots) :
    cleanup_screenshots now mA dir =
      sweepAfter now mA (dropFirstSuccess (sortScreenshots shots)) := by
  unfold cleanup_screenshots
  rw [h]
  show (List.foldl (sweepStep now mA) (false, []) (sortScreenshots shots)).2 = _
  rw [foldl_sweepStep_unkept]
  simp

theorem cleanup_screenshots_abort (now : Int) (mA : Nat) (dir : List SFile) (f : SFile)
    (hf : f ∈ dir) (hpng : isPng f = true) (hbad : excOk f.ctimeResult = false) :
    cleanup_screenshots now mA dir = [] := by
  obtain ⟨e, he⟩ :=
    gatherGo_error (dir.filter isPng) f (List.mem_filter.mpr ⟨hf, hpng⟩) hbad
  unfold cleanup_screenshots gatherScreenshots
  rw [he]

theorem mem_sweepAfter {now : Int} {mA : Nat} {l : List (Int × SFile)} {name : String} :
    name ∈ sweepAfter now mA l ↔
      ∃ p, p ∈ l ∧ p.2.filename = name ∧ isOld now mA p.1 = true ∧
        removeOk p.2 = true := by
  unfold sweepAfter
  rw [List.mem_filterMap]
  constructor
  · rintro ⟨p, hp, hsome⟩
    by_cases hc : (isOld now mA p.1 && removeOk p.2) = true
    · rw [if_pos hc] at hsome
      have hc2 : isOld now mA p.1 = true ∧ removeOk p.2 = true := by simpa using hc
      exact ⟨p, hp, Option.some.inj hsome, hc2.1, hc2.2⟩
    · rw [if_neg hc] at hsome
      exact absurd hsome (by simp)
  · rintro ⟨p, hp, hname, h1, h2⟩
    exact ⟨p, hp, by rw [if_pos (by simp [h1, h2]), hname]⟩

theorem dropFirstSuccess_no_success :
    ∀ l : List (Int × SFile), (∀ p ∈ l, containsSuccess p.2.filename = false) →
      dropFirstSuccess l = l := by
  intro l
  induction l with
  | nil => intro _; rfl
  | cons p rest ih =>
    intro h
    have hp := h p (List.mem_cons_self p rest)
    simp [dropFirstSuccess, hp, ih fun q hq => h q (List.mem_cons_of_mem _ hq)]

theorem dropFirstSuccess_decomp :
    ∀ (pre : List (Int × SFile)) (s : Int × SFile) (post : List (Int × SFile)),
      (∀ p ∈ pre, containsSuccess p.2.filename = false) →
      containsSuccess s.2.filename = true →
      dropFirstSuccess (pre ++ s :: post) = pre ++ post := by
  intro pre
  induction pre with
  | nil => intro s post _ hs; simp [dropFirstSuccess, hs]
  | cons q pre ih =>
    intro s post hpre hs
    have hq := hpre q (List.mem_cons_self q pre)
    simp only [List.cons_append]
    simp [dropFirstSuccess, hq,
      ih s post (fun p hp => hpre p (List.mem_cons_of_mem _ hp)) hs]

theorem first_success_decomp :
    ∀ l : List (Int × SFile), (∃ p ∈ l, containsSuccess p.2.filename = true) →
      ∃ pre s post, l = pre ++ s :: post ∧ containsSuccess s.2.filename = true ∧
        ∀ p ∈ pre, containsSuccess p.2.filename = false := by
  intro l
  induction l with
  | nil => rintro ⟨p, hp, _⟩; simp at hp
  | cons q rest ih =>
    rintro ⟨p, hp, hps⟩
    by_cases hq : containsSuccess q.2.filename = true
    · exact ⟨[], q, rest, by simp, hq, by simp⟩
    · have hprest : p ∈ rest := by
        rcases List.mem_cons.mp hp with rfl | h
        · exact absurd hps hq
        · exact h
      obtain ⟨pre, s, post, hdec, hs, hpre⟩ := ih ⟨p, hprest, hps⟩
      refine ⟨q :: pre, s, post, by rw [hdec]; rfl, hs, ?_⟩
      intro r hr
      rcases List.mem_cons.mp hr with rfl | hr
      · exact Bool.eq_false_iff.mpr hq
      · exact hpre r hr

theorem sorted_first_success_max {L pre post : List (Int × SFile)} {s : Int × SFile}
    (hs : List.Sorted shotR L) (hdec : L = pre ++ s :: post)
    (hpre : ∀ p ∈ pre, containsSuccess p.2.filename = false)
    (hssucc : containsSuccess s.2.filename = true) :
    ∀ p ∈ L, containsSuccess p.2.filename = true → skey p ≤ skey s := by
  subst hdec
  intro p hp hpsucc
  rcases List.mem_append.mp hp with hp | hp
  · rw [hpre p hp] at hpsucc
    exact absurd hpsucc (by simp)
  · rcases List.mem_cons.mp hp with rfl | hp
    · exact le_refl _
    · have hpair : List.Pairwise shotR (s :: post) :=
        ((List.pairwise_append.mp hs).2).1
      exact List.rel_of_pairwise_cons hpair hp

theorem mem_shots_iff {dir : List SFile} {p : Int × SFile} :
    p ∈ (dir.filter isPng).map (fun f => (ctimeOf f, f)) ↔
      p.2 ∈ dir ∧ isPng p.2 = true ∧ p.1 = ctimeOf p.2 := by
  rw [List.mem_map]
  constructor
  · rintro ⟨f, hf, rfl⟩
    exact ⟨(List.mem_filter.mp hf).1, (List.mem_filter.mp hf).2, rfl⟩
  · rintro ⟨h2, hpng, h1⟩
    refine ⟨p.2, List.mem_filter.mpr ⟨h2, hpng⟩, ?_⟩
    obtain ⟨c, f⟩ := p
    simp only at h1
    rw [h1]

/-- A file's name is removed by the sweep iff the file is a `.png`, is
older than the cutoff, its removal succeeds, and it is not the protected
most-recent success screenshot — provided every `.png` entry can be
statted and filenames are distinct. -/
theorem cleanup_mem_iff (now : Int) (mA : Nat) (dir : List SFile)
    (hct : ∀ f ∈ dir, isPng f = true → excOk f.ctimeResult = true)
    (hnd : (dir.map SFile.filename).Nodup) (name : String) :
    name ∈ cleanup_screenshots now mA dir ↔
      ∃ f ∈ dir, f.filename = name ∧ isPng f = true ∧
        isOld now mA (ctimeOf f) = true ∧ removeOk f = true ∧
        ¬ keptSuccess dir f := by
  have hg : gatherScreenshots dir =
      .ok ((dir.filter isPng).map fun f => (ctimeOf f, f)) := gather_ok dir hct
  have hclean := cleanup_screenshots_eq now mA dir _ hg
  have hperm : List.Perm
      (sortScreenshots ((dir.filter isPng).map fun f => (ctimeOf f, f)))
      ((dir.filter isPng).map fun f => (ctimeOf f, f)) :=
    List.perm_insertionSort shotR _
  have hsorted : List.Sorted shotR
      (sortScreenshots ((dir.filter isPng).map fun f => (ctimeOf f, f))) :=
    List.sorted_insertionSort shotR _
  have hinj : ∀ x ∈ dir, ∀ y ∈ dir, x.filename = y.filename → x = y :=
    List.inj_on_of_nodup_map hnd
  have hLnodup : (sortScreenshots ((dir.filter isPng).map fun f => (ctimeOf f, f))).Nodup := by
    refine hperm.nodup_iff.mpr (List.Nodup.map ?_ ((List.Nodup.of_map _ hnd).filter _))
    intro a b hab
    exact congrArg Prod.snd hab
  rw [hclean]
  by_cases hsucc : ∃ p ∈ sortScreenshots ((dir.filter isPng).map fun f => (ctimeOf f, f)),
      containsSuccess p.2.filename = true
  · obtain ⟨pre, s, post, hdec, hssucc, hpre⟩ := first_success_decomp _ hsucc
    have hsL : s ∈ sortScreenshots ((dir.filter isPng).map fun f => (ctimeOf f, f)) := by
      rw [hdec]; simp
    have hs_shape := mem_shots_iff.mp (hperm.subset hsL)
    have hs_pair : s = (ctimeOf s.2, s.2) := by
      obtain ⟨c, f⟩ := s
      simp only at hs_shape ⊢
      rw [hs_shape.2.2]
    have hmax := sorted_first_success_max hsorted hdec hpre hssucc
    have hdrop : dropFirstSuccess
        (sortScreenshots ((dir.filter isPng).map fun f => (ctimeOf f, f))) = pre ++ post := by
      rw [hdec]; exact dropFirstSuccess_decomp pre s post hpre hssucc
    have hsnotin : s ∉ pre ++ post := by
      intro hmem
      have := hLnodup
      rw [hdec] at this
      rcases List.mem_append.mp hmem with h | h
      · exact (List.disjoint_of_nodup_append this) h (List.mem_cons_self s post)
      · exact ((List.nodup_cons.mp (List.nodup_append.mp this).2.1).1) h
    have hbridge : ∀ f ∈ dir, isPng f = true → (keptSuccess dir f ↔ f = s.2) := by
      intro f hf hpng
      constructor
      · rintro ⟨_, hfsucc, hmaxf⟩
        have h1 : fkey s.2 ≤ fkey f := hmaxf s.2 hs_shape.1 hs_shape.2.1 hssucc
        have hpairL : (ctimeOf f, f) ∈
            sortScreenshots ((dir.filter isPng).map fun g => (ctimeOf g, g)) :=
          hperm.mem_iff.mpr (mem_shots_iff.mpr ⟨hf, hpng, rfl⟩)
        have h2 : skey (ctimeOf f, f) ≤ skey s := hmax _ hpairL hfsucc
        have h2F : fkey f ≤ fkey s.2 := by
          have hss : skey s = fkey s.2 := by rw [hs_pair]; rfl
          rw [← hss]
          exact h2
        have heq : fkey f = fkey s.2 := le_antisymm h2F h1
        have hpair : (ctimeOf f, f.filename) = (ctimeOf s.2, s.2.filename) := by
          simpa [fkey] using congrArg ofLex heq
        exact hinj f hf s.2 hs_shape.1 (congrArg Prod.snd hpair)
      · rintro rfl
        refine ⟨hpng, hssucc, ?_⟩
        intro g hg hgpng hgsucc
        have hgL : (ctimeOf g, g) ∈
            sortScreenshots ((dir.filter isPng).map fun q => (ctimeOf q, q)) :=
          hperm.mem_iff.mpr (mem_shots_iff.mpr ⟨hg, hgpng, rfl⟩)
        have := hmax _ hgL hgsucc
        have hss : skey s = fkey s.2 := by rw [hs_pair]; rfl
        rw [hss] at this
        exact this
    rw [hdrop, mem_sweepAfter]
    constructor
    · rintro ⟨p, hp, rfl, ho, hr⟩
      have hpL : p ∈ sortScreenshots ((dir.filter isPng).map fun f => (ctimeOf f, f)) := by
        rw [hdec]
        rcases List.mem_append.mp hp with h | h
        · exact List.mem_append.mpr (Or.inl h)
        · exact List.mem_append.mpr (Or.inr (List.mem_cons_of_mem _ h))
      have hp_shape := mem_shots_iff.mp (hperm.subset hpL)
      have hp_pair : p = (ctimeOf p.2, p.2) := by
        obtain ⟨c, f⟩ := p
        simp only at hp_shape ⊢
        rw [hp_shape.2.2]
      refine ⟨p.2, hp_shape.1, rfl, hp_shape.2.1, ?_, hr, ?_⟩
      · rw [← hp_shape.2.2]; exact ho
      · intro hks
        have hps2 : p.2 = s.2 := (hbridge p.2 hp_shape.1 hp_shape.2.1).mp hks
        have hps : p = s := by rw [hp_pair, hs_pair, hps2]
        exact hsnotin (hps ▸ hp)
    · rintro ⟨f, hf, rfl, hpng, ho, hr, hk⟩
      have hfneq : f ≠ s.2 := fun h => hk ((hbridge f hf hpng).mpr h)
      have hpairL : (ctimeOf f, f) ∈
          sortScreenshots ((dir.filter isPng).map fun g => (ctimeOf g, g)) :=
        hperm.mem_iff.mpr (mem_shots_iff.mpr ⟨hf, hpng, rfl⟩)
      have hpairpp : (ctimeOf f, f) ∈ pre ++ post := by
        rw [hdec] at hpairL
        rcases List.mem_append.mp hpairL with h | h
        · exact List.mem_append.mpr (Or.inl h)
        · rcases List.mem_cons.mp h with he | h
          · exact absurd (congrArg (fun q => q.2) he) hfneq
          · exact List.mem_append.mpr (Or.inr h)
      exact ⟨(ctimeOf f, f), hpairpp, rfl, ho, hr⟩
  · have hnone : ∀ p ∈ sortScreenshots ((dir.filter isPng).map fun f => (ctimeOf f, f)),
        containsSuccess p.2.filename = false := by
      intro p hp
      cases hv : containsSuccess p.2.filename
      · rfl
      · exact absurd ⟨p, hp, hv⟩ hsucc
    rw [dropFirstSuccess_no_success _ hnone, mem_sweepAfter]
    constructor
    · rintro ⟨p, hp, rfl, ho, hr⟩
      have hp_shape := mem_shots_iff.mp (hperm.subset hp)
      refine ⟨p.2, hp_shape.1, rfl, hp_shape.2.1, ?_, hr, ?_⟩
      · rw [← hp_shape.2.2]; exact ho
      · rintro ⟨_, hfsucc, _⟩
        exact hsucc ⟨p, hp, hfsucc⟩
    · rintro ⟨f, hf, rfl, hpng, ho, hr, _⟩
      exact ⟨(ctimeOf f, f), hperm.mem_iff.mpr (mem_shots_iff.mpr ⟨hf, hpng, rfl⟩),
        rfl, ho, hr⟩

/-- Some `.png` entry of the directory is a success screenshot with
maximal `(ctime, filename)` key. -/
theorem exists_keptSuccess (dir : List SFile)
    (hs : ∃ f ∈ dir, isPng f = true ∧ containsSuccess f.filename = true) :
    ∃ s ∈ dir, keptSuccess dir s := by
  obtain ⟨f0, hf0, hpng0, hsucc0⟩ := hs
  have hne : dir.filter (fun f => isPng f && containsSuccess f.filename) ≠ [] := by
    intro hnil
    have hmem : f0 ∈ dir.filter (fun f => isPng f && containsSuccess f.filename) :=
      List.mem_filter.mpr ⟨hf0, by simp [hpng0, hsucc0]⟩
    rw [hnil] at hmem
    simp at hmem
  obtain ⟨m, hm⟩ : ∃ m,
      (dir.filter fun f => isPng f && containsSuccess f.filename).argmax fkey = some m := by
    cases harg : (dir.filter fun f => isPng f && containsSuccess f.filename).argmax fkey with
    | none => exact absurd (List.argmax_eq_none.mp harg) hne
    | some m => exact ⟨m, rfl⟩
  have hmf := List.mem_filter.mp (List.argmax_mem hm)
  have hmprops : isPng m = true ∧ containsSuccess m.filename = true := by
    simpa using hmf.2
  refine ⟨m, hmf.1, hmprops.1, hmprops.2, ?_⟩
  intro g hg hgpng hgsucc
  exact List.le_of_mem_argmax
    (List.mem_filter.mpr ⟨hg, by simp [hgpng, hgsucc]⟩) hm

/-- With distinct filenames, at most one entry is the protected
most-recent success screenshot. -/
theorem keptSuccess_unique (dir : List SFile) (hnd : (dir.map SFile.filename).Nodup)
    {a b : SFile} (ha : a ∈ dir) (hb : b ∈ dir)
    (hka : keptSuccess dir a) (hkb : keptSuccess dir b) : a = b := by
  have h1 : fkey a ≤ fkey b := hkb.2.2 a ha hka.1 hka.2.1
  have h2 : fkey b ≤ fkey a := hka.2.2 b hb hkb.1 hkb.2.1
  have hpair : (ctimeOf a, a.filename) = (ctimeOf b, b.filename) := by
    simpa [fkey] using congrArg ofLex (le_antisymm h1 h2)
  exact List.inj_on_of_nodup_map hnd ha hb (congrArg Prod.snd hpair)

/-! ## Claim C3: screenshot retention -/

/-- C3 (counterexample).  With two success-tagged screenshots both newer
than the threshold, the sweep removes nothing, so two success-tagged files
remain — the claim's "keeps exactly one success-tagged file" fails.  The
code only protects the newest success from age-based deletion; it never
deletes extra success files that are younger than the threshold. -/
theorem cleanup_two_success_kept :
    cleanup_screenshots 2000 24
        [{ filename := "success_1.png", ctimeResult := .ok 1000, removeResult := .ok () },
         { filename := "success_2.png", ctimeResult := .ok 2000, removeResult := .ok () }] =
      [] ∧
    containsSuccess "success_1.png" = true ∧ containsSuccess "success_2.png" = true := by
  decide

/-- C3 (amended).  When every entry can be statted and removed and
filenames are distinct, and at least one success-tagged `.png` exists: the
most-recent success-tagged file is kept regardless of its age, every other
`.png` file (success-tagged or not) is removed exactly when its age
exceeds the threshold, and every file newer than the threshold is left
untouched. -/
theorem cleanup_screenshots_retention (now : Int) (mA : Nat) (dir : List SFile)
    (hct : ∀ f ∈ dir, isPng f = true → excOk f.ctimeResult = true)
    (hrm : ∀ f ∈ dir, removeOk f = true)
    (hnd : (dir.map SFile.filename).Nodup)
    (hs : ∃ f ∈ dir, isPng f = true ∧ containsSuccess f.filename = true) :
    ∃ s ∈ dir, keptSuccess dir s ∧
      s.filename ∉ cleanup_screenshots now mA dir ∧
      (∀ g ∈ dir, isPng g = true → g ≠ s →
        (g.filename ∈ cleanup_screenshots now mA dir ↔
          isOld now mA (ctimeOf g) = true)) ∧
      (∀ g ∈ dir, isOld now mA (ctimeOf g) = false →
        g.filename ∉ cleanup_screenshots now mA dir) := by
  obtain ⟨s, hsmem, hks⟩ := exists_keptSuccess dir hs
  refine ⟨s, hsmem, hks, ?_, ?_, ?_⟩
  · intro hmem
    obtain ⟨f, hf, hfname, _, _, _, hfk⟩ :=
      (cleanup_mem_iff now mA dir hct hnd _).mp hmem
    have hfs : f = s := List.inj_on_of_nodup_map hnd hf hsmem hfname
    exact hfk (hfs ▸ hks)
  · intro g hg hgpng hgne
    constructor
    · intro hmem
      obtain ⟨f, hf, hfname, _, hfold, _, _⟩ :=
        (cleanup_mem_iff now mA dir hct hnd _).mp hmem
      have hfg : f = g := List.inj_on_of_nodup_map hnd hf hg hfname
      rw [hfg] at hfold
      exact hfold
    · intro hold
      refine (cleanup_mem_iff now mA dir hct hnd _).mpr
        ⟨g, hg, rfl, hgpng, hold, hrm g hg, ?_⟩
      intro hkg
      exact hgne (keptSuccess_unique dir hnd hg hsmem hkg hks)
  · intro g hg hnew hmem
    obtain ⟨f, hf, hfname, _, hfold, _, _⟩ :=
      (cleanup_mem_iff now mA dir hct hnd _).mp hmem
    have hfg : f = g := List.inj_on_of_nodup_map hnd hf hg hfname
    rw [hfg, hnew] at hfold
    exact absurd hfold (by simp)

/-- C3 (witness).  A directory with two success and two error
screenshots: the newest success (`success_b.png`) is kept though old, the
old `success_a.png` and `error_c.png` are eligible for removal, and the
fresh `error_d.png` is untouched. -/
theorem cleanup_screenshots_retention_witness :
    ∃ s ∈ ([{ filename := "success_a.png", ctimeResult := .ok 0, removeResult := .ok () },
            { filename := "success_b.png", ctimeResult := .ok 100, removeResult := .ok () },
            { filename := "error_c.png", ctimeResult := .ok 0, removeResult := .ok () },
            { filename := "error_d.png", ctimeResult := .ok 100000,
              removeResult := .ok () }] : List SFile),
      keptSuccess [{ filename := "success_a.png", ctimeResult := .ok 0, removeResult := .ok () },
            { filename := "success_b.png", ctimeResult := .ok 100, removeResult := .ok () },
            { filename := "error_c.png", ctimeResult := .ok 0, removeResult := .ok () },
            { filename := "error_d.png", ctimeResult := .ok 100000,
              removeResult := .ok () }] s ∧
      s.filename ∉ cleanup_screenshots 100000 24
          [{ filename := "success_a.png", ctimeResult := .ok 0, removeResult := .ok () },
            { filename := "success_b.png", ctimeResult := .ok 100, removeResult := .ok () },
            { filename := "error_c.png", ctimeResult := .ok 0, removeResult := .ok () },
            { filename := "error_d.png", ctimeResult := .ok 100000,
              removeResult := .ok () }] ∧
      (∀ g ∈ ([{ filename := "success_a.png", ctimeResult := .ok 0, removeResult := .ok () },
            { filename := "success_b.png", ctimeResult := .ok 100, removeResult := .ok () },
            { filename := "error_c.png", ctimeResult := .ok 0, removeResult := .ok () },
            { filename := "error_d.png", ctimeResult := .ok 100000,
              removeResult := .ok () }] : List SFile), isPng g = true → g ≠ s →
        (g.filename ∈ cleanup_screenshots 100000 24
            [{ filename := "success_a.png", ctimeResult := .ok 0, removeResult := .ok () },
              { filename := "success_b.png", ctimeResult := .ok 100, removeResult := .ok () },
              { filename := "error_c.png", ctimeResult := .ok 0, removeResult := .ok () },
              { filename := "error_d.png", ctimeResult := .ok 100000,
                removeResult := .ok () }] ↔
          isOld 100000 24 (ctimeOf g) = true)) ∧
      (∀ g ∈ ([{ filename := "success_a.png", ctimeResult := .ok 0, removeResult := .ok () },
            { filename := "success_b.png", ctimeResult := .ok 100, removeResult := .ok () },
            { filename := "error_c.png", ctimeResult := .ok 0, removeResult := .ok () },
            { filename := "error_d.png", ctimeResult := .ok 100000,
              removeResult := .ok () }] : List SFile), isOld 100000 24 (ctimeOf g) = false →
        g.filename ∉ cleanup_screenshots 100000 24
            [{ filename := "success_a.png", ctimeResult := .ok 0, removeResult := .ok () },
              { filename := "success_b.png", ctimeResult := .ok 100, removeResult := .ok () },
              { filename := "error_c.png", ctimeResult := .ok 0, removeResult := .ok () },
              { filename := "error_d.png", ctimeResult := .ok 100000,
                removeResult := .ok () }]) :=
  cleanup_screenshots_retention 100000 24 _ (by decide) (by decide) (by decide) (by decide)

/-! ## Claim C9: per-file error tolerance of the sweep -/

/-- C9 (counterexample).  A filesystem error on one file aborts the sweep
of the others: when `getctime` raises on `bad.png`, the enclosing `try`
catches it and the function returns with nothing removed, so the old
non-success `error_1.png` — which would otherwise be deleted — survives,
contrary to the claim that an error on one file never aborts the sweep of
the others. -/
theorem cleanup_stat_error_aborts :
    cleanup_screenshots 200000 24
        [{ filename := "bad.png", ctimeResult := .error "OSError: stat failed",
           removeResult := .ok () },
         { filename := "error_1.png", ctimeResult := .ok 0, removeResult := .ok () }] =
      [] ∧
    isOld 200000 24 0 = true ∧ containsSuccess "error_1.png" = false := by
  decide

/-- C9 (amended).  The sweep tolerates per-file `os.remove` errors: with
all stats succeeding and distinct filenames, whether a file is removed is
determined by that file's own tag, age and removal outcome (plus the
static key comparison singling out the newest success), so a removal
error on one file never affects the others.  A `getctime` error on any
listed `.png`, however, aborts the whole sweep — it is caught and logged,
but nothing at all is removed. -/
theorem cleanup_screenshots_per_file_tolerance (now : Int) (mA : Nat) (dir : List SFile)
    (hnd : (dir.map SFile.filename).Nodup) :
    ((∀ f ∈ dir, isPng f = true → excOk f.ctimeResult = true) →
      ∀ g ∈ dir, (g.filename ∈ cleanup_screenshots now mA dir ↔
        isPng g = true ∧ isOld now mA (ctimeOf g) = true ∧ removeOk g = true ∧
          ¬ keptSuccess dir g)) ∧
    (∀ f ∈ dir, isPng f = true → excOk f.ctimeResult = false →
      cleanup_screenshots now mA dir = []) := by
  constructor
  · intro hct g hg
    rw [cleanup_mem_iff now mA dir hct hnd]
    constructor
    · rintro ⟨f, hf, hfname, hfpng, hfold, hfrm, hfk⟩
      have hfg : f = g := List.inj_on_of_nodup_map hnd hf hg hfname
      subst hfg
      exact ⟨hfpng, hfold, hfrm, hfk⟩
    · rintro ⟨hgpng, hgold, hgrm, hgk⟩
      exact ⟨g, hg, rfl, hgpng, hgold, hgrm, hgk⟩
  · intro f hf hpng hbad
    exact cleanup_screenshots_abort now mA dir f hf hpng hbad

/-- C9 (witness).  First prong: with `error_a.png` failing to remove,
`error_b.png` is still removed.  Second prong: a failing stat on `bad.png`
empties the sweep. -/
theorem cleanup_screenshots_per_file_tolerance_witness :
    ("error_b.png" ∈ cleanup_screenshots 200000 24
        [{ filename := "error_a.png", ctimeResult := .ok 0,
           removeResult := .error "PermissionError" },
         { filename := "error_b.png", ctimeResult := .ok 10, removeResult := .ok () }]) ∧
    cleanup_screenshots 200000 24
        [{ filename := "bad.png", ctimeResult := .error "OSError", removeResult := .ok () },
         { filename := "error_b.png", ctimeResult := .ok 10, removeResult := .ok () }] =
      [] := by
  constructor
  · exact ((cleanup_screenshots_per_file_tolerance 200000 24
        [{ filename := "error_a.png", ctimeResult := .ok 0,
           removeResult := .error "PermissionError" },
         { filename := "error_b.png", ctimeResult := .ok 10, removeResult := .ok () }]
        (by decide)).1 (by decide)
        { filename := "error_b.png", ctimeResult := .ok 10, removeResult := .ok () }
        (by decide)).mpr
      ⟨by decide, by decide, by decide, fun h => absurd h.2.1 (by decide)⟩
  · exact (cleanup_screenshots_per_file_tolerance 200000 24
        [{ filename := "bad.png", ctimeResult := .error "OSError", removeResult := .ok () },
         { filename := "error_b.png", ctimeResult := .ok 10, removeResult := .ok () }]
        (by decide)).2
      { filename := "bad.png", ctimeResult := .error "OSError", removeResult := .ok () }
      (by decide) (by decide) (by decide)

end InfinitiBot
